import Mathlib

/-!
Verification of the exit-status taxonomy of the Blaze command-line client
(`src/main/cpp/blaze_exit_code.h`).  The header defines a single C++
enumeration `ExitCodes` in namespace `blaze_exit_code`; we embed it as an
inductive type together with the numeric binding of each enumerator, and a
registry table listing the name/value pairs exactly as the enum declares them.

The spec additionally describes three operations (`lookup`, `classify`,
`select_final`) that the source excerpt does not implement; those are
modelled from the spec's words, as marked in their doc comments.
-/

namespace blaze_exit_code

/-- The enumerators of the C++ `enum ExitCodes` from blaze_exit_code.h. -/
inductive ExitCodes where
  | SUCCESS
  | BAD_ARGV
  | LOCAL_ENVIRONMENTAL_ERROR
  | INTERNAL_ERROR
deriving DecidableEq, Repr, Fintype

/-- The numeric value bound to each enumerator, exactly as in the source:
`SUCCESS = 0`, `BAD_ARGV = 2`, `LOCAL_ENVIRONMENTAL_ERROR = 36`,
`INTERNAL_ERROR = 37`. -/
def exitCodeValue : ExitCodes → Nat
  | .SUCCESS => 0
  | .BAD_ARGV => 2
  | .LOCAL_ENVIRONMENTAL_ERROR => 36
  | .INTERNAL_ERROR => 37

/-- The registry as a name-to-value table: the four bindings the enum
declares, in declaration order. -/
def registry : List (String × Nat) :=
  [("SUCCESS", 0),
   ("BAD_ARGV", 2),
   ("LOCAL_ENVIRONMENTAL_ERROR", 36),
   ("INTERNAL_ERROR", 37)]

/-- List of all enumerators, in declaration order. -/
def allCodes : List ExitCodes :=
  [.SUCCESS, .BAD_ARGV, .LOCAL_ENVIRONMENTAL_ERROR, .INTERNAL_ERROR]

/-- Modelled from the spec: `lookup(name) -> integer` is missing from the
source excerpt (only the enum table exists).  It returns the fixed numeric
value for a named category by reading the registry table. -/
def lookup (name : String) : Option Nat :=
  (registry.find? (fun p => p.1 == name)).map Prod.snd

/-- Modelled from the spec: the internal outcome signals that subsystems can
report are not enumerated in the source excerpt.  We model the examples the
spec gives, plus a family of unenumerated outcomes (`other`) that match no
explicit classification rule. -/
inductive OutcomeSignal where
  | success
  | invalidFlagCombination
  | badEnvVariable
  | localEnvFailure
  | unexpectedCrash
  | externalKillSignal
  | other (tag : Nat)
deriving DecidableEq, Repr

/-- Modelled from the spec: the explicit classification rules of `classify`,
returning `none` for an outcome matching no explicit rule. -/
def classifyExplicit : OutcomeSignal → Option ExitCodes
  | .success => some .SUCCESS
  | .invalidFlagCombination => some .BAD_ARGV
  | .badEnvVariable => some .BAD_ARGV
  | .localEnvFailure => some .LOCAL_ENVIRONMENTAL_ERROR
  | .unexpectedCrash => some .INTERNAL_ERROR
  | .externalKillSignal => some .INTERNAL_ERROR
  | .other _ => none

/-- Modelled from the spec: `classify(outcome_signal) -> ExitStatus` is
missing from the source excerpt.  It deterministically maps every internal
outcome to exactly one category; an outcome matching no explicit rule falls
back to the internal/unexpected-failure category. -/
def classify (s : OutcomeSignal) : ExitCodes :=
  (classifyExplicit s).getD .INTERNAL_ERROR

/-- Modelled from the spec: the precedence order among categories used by
`select_final`: a user-actionable failure beats an environment failure,
which beats the last-resort internal failure; success has no precedence over
any failure.  Lower rank wins. -/
def precedenceRank : ExitCodes → Nat
  | .BAD_ARGV => 0
  | .LOCAL_ENVIRONMENTAL_ERROR => 1
  | .INTERNAL_ERROR => 2
  | .SUCCESS => 3

/-- Modelled from the spec: `select_final(candidates) -> ExitStatus` is
missing from the source excerpt.  Among the reported candidate outcomes it
commits the one of highest precedence (the earliest reported on a tie); with
no reported failure candidates the run is a success. -/
def select_final : List ExitCodes → ExitCodes
  | [] => .SUCCESS
  | c :: cs =>
      cs.foldl (fun acc x => if precedenceRank x < precedenceRank acc then x else acc) c

/-- C1: the registry binds exactly the numeric values of the
external-interface table: success is 0, caller error (`BAD_ARGV`) is 2,
local environment/infrastructure failure is 36, and internal/unexpected
termination is 37. -/
theorem registry_binds_table_values :
    exitCodeValue .SUCCESS = 0 ∧
    exitCodeValue .BAD_ARGV = 2 ∧
    exitCodeValue .LOCAL_ENVIRONMENTAL_ERROR = 36 ∧
    exitCodeValue .INTERNAL_ERROR = 37 := by
  decide

/-- C2: exactly one category denotes success and its value is 0; every
category's value is 0 precisely when it is the success category, so every
other category's value is nonzero. -/
theorem success_unique_zero :
    ∀ c : ExitCodes, exitCodeValue c = 0 ↔ c = .SUCCESS := by
  decide

/-- C3: the name-to-value binding is collision-free: distinct categories are
bound to distinct numeric values. -/
theorem values_injective :
    ∀ c d : ExitCodes, c ≠ d → exitCodeValue c ≠ exitCodeValue d := by
  decide

/-- Witness for C3 at the concrete pair (`BAD_ARGV`, `SUCCESS`). -/
theorem values_injective_witness :
    exitCodeValue ExitCodes.BAD_ARGV ≠ exitCodeValue ExitCodes.SUCCESS :=
  values_injective ExitCodes.BAD_ARGV ExitCodes.SUCCESS (by decide)

/-- C4: every numeric value of the registry lies within the OS-imposed
inclusive range [0, 255]. -/
theorem values_in_range :
    ∀ c : ExitCodes, exitCodeValue c ≤ 255 := by
  decide

/-- C5: for the candidate sequence [user-error, internal-crash] reported in
that order, `select_final` returns the user-error code 2, not the
internal-crash code 37. -/
theorem select_final_user_over_internal :
    select_final [.BAD_ARGV, .INTERNAL_ERROR] = ExitCodes.BAD_ARGV ∧
    exitCodeValue (select_final [.BAD_ARGV, .INTERNAL_ERROR]) = 2 := by
  decide

/-- C6: for the singleton candidate sequence [internal-crash], with no
earlier more specific failure, `select_final` returns the internal-crash
code 37. -/
theorem select_final_internal_alone :
    select_final [.INTERNAL_ERROR] = ExitCodes.INTERNAL_ERROR ∧
    exitCodeValue (select_final [.INTERNAL_ERROR]) = 37 := by
  decide

/-- C7: `classify` is total — it returns a category for every representable
outcome signal — and any outcome matching no explicit rule falls back to the
internal/unexpected-failure category (code 37), in particular never to
success. -/
theorem classify_total_with_fallback :
    ∀ s : OutcomeSignal,
      (∃ c : ExitCodes, classify s = c) ∧
      (classifyExplicit s = none →
        classify s = ExitCodes.INTERNAL_ERROR ∧ exitCodeValue (classify s) = 37) := by
  intro s
  refine ⟨⟨classify s, rfl⟩, fun h => ?_⟩
  simp [classify, h, exitCodeValue]

/-- Witness for C7 at the unenumerated outcome `other 0`, which matches no
explicit rule. -/
theorem classify_total_with_fallback_witness :
    classify (OutcomeSignal.other 0) = ExitCodes.INTERNAL_ERROR ∧
    exitCodeValue (classify (OutcomeSignal.other 0)) = 37 :=
  (classify_total_with_fallback (OutcomeSignal.other 0)).2 rfl

/-- C8: `lookup` is deterministic and stable within a single build: it is a
pure function of the registry table, so two calls with the same category
name return the identical value. -/
theorem lookup_deterministic :
    ∀ name : String, lookup name = lookup name ∧ lookup "BAD_ARGV" = some 2 := by
  intro name
  exact ⟨rfl, rfl⟩

/-- C9: `select_final` is order-independent with respect to precedence: the
candidates [environment-failure, user-error] presented in either order
commit the user-error code 2. -/
theorem select_final_order_independent :
    select_final [.LOCAL_ENVIRONMENTAL_ERROR, .BAD_ARGV]
      = select_final [.BAD_ARGV, .LOCAL_ENVIRONMENTAL_ERROR] ∧
    exitCodeValue (select_final [.LOCAL_ENVIRONMENTAL_ERROR, .BAD_ARGV]) = 2 ∧
    exitCodeValue (select_final [.BAD_ARGV, .LOCAL_ENVIRONMENTAL_ERROR]) = 2 := by
  decide

/-- C10: the registry is a closed set of exactly four bindings whose value
set is {0, 2, 36, 37}; in particular the generic-failure code 1 and every
value in 3–35 and 38–255 is bound to no category. -/
theorem registry_closed_value_set :
    registry.length = 4 ∧
    registry.map Prod.snd = [0, 2, 36, 37] ∧
    (∀ v : Nat, v ∈ registry.map Prod.snd ↔ (v = 0 ∨ v = 2 ∨ v = 36 ∨ v = 37)) ∧
    1 ∉ registry.map Prod.snd := by
  refine ⟨rfl, rfl, fun v => ?_, by decide⟩
  simp [registry]

end blaze_exit_code
